import Mathlib

/-!
Verification development for the RADHE-KRISHNA backend (src/index.js):
a session-authenticated, per-user file-storage service over an S3-compatible
object store.  The Express routes, the credential store (users.json), the
session gate, the storage-key scheme and the four file operations are
embedded below as executable Lean functions; external collaborators
(bcrypt, multer, the S3 backend, Node path.basename) appear either as
explicit parameters or as small models of their documented contracts,
each noted in its doc comment.
-/

namespace RadheKrishna

/-- JSON values, as produced by the handlers via Express `res.json(...)`. -/
inductive Json where
  | null
  | bool (b : Bool)
  | str (s : String)
  | arr (elems : List Json)
  | obj (fields : List (String × Json))

/-- An HTTP response: status code plus JSON body.  `res.json(x)` with no
explicit status sends status 200; `res.status(n).json(x)` sends status n. -/
structure Response where
  status : Nat
  body : Json

/-- A storage-backend call issued by a handler (the four AWS SDK commands used
in src/index.js).  `pfx` is the `Prefix` parameter of `ListObjectsV2Command`. -/
inductive S3Op where
  | putObject (bucket key : String) (body : List Nat) (contentType : String)
  | listObjectsV2 (bucket pfx : String)
  | getSignedUrlGet (bucket key : String) (expiresIn : Nat)
  | deleteObject (bucket key : String)

/-- The credential store: the parsed contents of `users.json`, a JS object
mapping username to bcrypt hash.  Modelled as an association list in which the
first binding for a key wins (JS property lookup); `addUser` only ever adds a
key that is absent, so insertion order never creates duplicates. -/
abbrev Users := List (String × String)

/-- The value of a JS property read on the parsed store: an own property (a
string hash), a property inherited from `Object.prototype` (a non-string
function or object value), or `undefined`. -/
inductive JsVal where
  | undef
  | str (s : String)
  | inherited (name : String)

/-- The property names of `Object.prototype`: every object produced by
`JSON.parse` (src/index.js:28) inherits these, so reading any of them on the
parsed store yields a truthy non-string value (a function, or for
`__proto__` the prototype object) even though no such user is stored. -/
def objectProtoNames : List String :=
  ["constructor", "hasOwnProperty", "isPrototypeOf", "propertyIsEnumerable",
   "toLocaleString", "toString", "valueOf", "__proto__",
   "__defineGetter__", "__defineSetter__", "__lookupGetter__",
   "__lookupSetter__"]

/-- JS property read `users[username]` on the object produced by `JSON.parse`:
the first own binding for the key if any, else the property inherited from
`Object.prototype` if the key is one of its names, else `undefined`. -/
def getUser (users : Users) (u : String) : JsVal :=
  match users with
  | [] => if objectProtoNames.contains u then .inherited u else .undef
  | (k, v) :: t => if k == u then .str v else getUser t u

/-- JS property write `users[username] = v`: overwrite the first binding for
the key, or append a fresh binding when the key is absent. -/
def setUser (users : Users) (u v : String) : Users :=
  match users with
  | [] => [(u, v)]
  | (k, w) :: t => if k == u then (k, v) :: t else (k, w) :: setUser t u v

/-- JS truthiness of `users[username]`: `undefined` and the empty string are
falsy; every other string, and every function or object inherited from
`Object.prototype`, is truthy. -/
def jsTruthy (v : JsVal) : Bool :=
  match v with
  | .undef => false
  | .str s => s != ""
  | .inherited _ => true

/-- State of the `users.json` backing file: `none` when the file does not
exist, `some m` when it exists and parses to the mapping `m` (JSON
serialization is the identity at this level of modelling). -/
abbrev FsState := Option Users

/-- Model of `loadUsers` (src/index.js:24-29): if the file does not exist,
write a default store containing the single account
`admin -> bcrypt.hashSync("r", 10)`, then read and parse the file.
`bhashSync` stands for the salted `bcrypt.hashSync(. , 10)` of that one call.
Returns the mapping together with the resulting file state. -/
def loadUsers (bhashSync : String → String) (fs : FsState) : Users × FsState :=
  match fs with
  | none =>
    let init : Users := [("admin", bhashSync "r")]
    (init, some init)
  | some users => (users, some users)

/-- Model of `findUser` (src/index.js:35-39): load the store; return `null`
when `users[username]` is falsy, else the record `{ username, password }` —
whose `password` is whatever value the property read produced, possibly a
non-string inherited from `Object.prototype`.  Also returns the file state
left behind by the embedded `loadUsers`. -/
def findUser (bhashSync : String → String) (fs : FsState) (username : String) :
    Option (String × JsVal) × FsState :=
  let p := loadUsers bhashSync fs
  let v := getUser p.1 username
  if jsTruthy v then (some (username, v), p.2) else (none, p.2)

/-- Model of `addUser` (src/index.js:41-47): load the store; throw
"User already exists" when `users[username]` is truthy (which includes
usernames that are `Object.prototype` property names); otherwise store
`bcrypt.hash(password, 10)` under the username and save the whole store.
`bhash` stands for this call's salted `bcrypt.hash(. , 10)`. -/
def addUser (bhashSync bhash : String → String) (fs : FsState)
    (username password : String) : Except String String × FsState :=
  let p := loadUsers bhashSync fs
  if jsTruthy (getUser p.1 username) then
    (.error "User already exists", p.2)
  else
    (.ok username, some (setUser p.1 username (bhash password)))

/-- The 401 response sent by the auth middleware (src/index.js:118). -/
def loginRequired401 : Response :=
  ⟨401, .obj [("success", .bool false), ("error", .str "Login required")]⟩

/-- Model of `requireLogin` (src/index.js:116-121): respond
`401 {success:false, error:"Login required"}` when `req.session.user` is
absent, otherwise call `next()` (modelled as `none` = fell through to the
handler).  `req.session.user`, when present, is the object `{username}`,
always truthy; `sessUser` carries its `username` field. -/
def requireLogin (sessUser : Option String) : Option Response :=
  match sessUser with
  | none => some loginRequired401
  | some _ => none

/-- Model of `POST /register` (src/index.js:131-139): `addUser`, then on
success bind the session to the new identity and answer `{success:true}`;
on a thrown error answer `400 {success:false, error: e.message}`.
Returns (response, resulting session user, resulting file state). -/
def registerRoute (bhashSync bhash : String → String) (fs : FsState)
    (sessUser : Option String) (username password : String) :
    Response × Option String × FsState :=
  let r := addUser bhashSync bhash fs username password
  match r.1 with
  | .ok u => (⟨200, .obj [("success", .bool true)]⟩, some u, r.2)
  | .error msg =>
    (⟨400, .obj [("success", .bool false), ("error", .str msg)]⟩, sessUser, r.2)

/-- Modelled from the documented behavior of bcryptjs `compare`: against a
string hash it yields the boolean verify result (the `bcompare` parameter);
against a non-string value — such as a function inherited from
`Object.prototype` — it rejects with an "Illegal arguments" error. -/
def bcryptCompare (bcompare : String → String → Bool) (password : String)
    (hash : JsVal) : Except String Bool :=
  match hash with
  | .str h => .ok (bcompare password h)
  | .undef => .error "Illegal arguments"
  | .inherited _ => .error "Illegal arguments"

/-- Model of `POST /login` (src/index.js:142-151): `findUser`; answer
`401 {success:false}` when it returns `null`; otherwise await
`bcrypt.compare(password, user.password)` and either bind the session and
answer `{success:true}` or answer `401 {success:false}`.  When `compare`
rejects (non-string `user.password`), the async handler has no catch: the
error propagates out and no response is sent (`.error`). -/
def loginRoute (bhashSync : String → String) (bcompare : String → String → Bool)
    (fs : FsState) (sessUser : Option String) (username password : String) :
    Except String Response × Option String × FsState :=
  let r := findUser bhashSync fs username
  match r.1 with
  | none => (.ok ⟨401, .obj [("success", .bool false)]⟩, sessUser, r.2)
  | some user =>
    match bcryptCompare bcompare password user.2 with
    | .error e => (.error e, sessUser, r.2)
    | .ok ok =>
      if ok then
        (.ok ⟨200, .obj [("success", .bool true)]⟩, some user.1, r.2)
      else
        (.ok ⟨401, .obj [("success", .bool false)]⟩, sessUser, r.2)

/-- Upload object key (src/index.js:165):
`username + "/" + Date.now() + "-" + req.file.originalname`. -/
def uploadKey (username : String) (nowMillis : Nat) (originalname : String) :
    String :=
  username ++ "/" ++ toString nowMillis ++ "-" ++ originalname

/-- Listing key Prefix (src/index.js:183): `username + "/"`. -/
def listPre (username : String) : String :=
  username ++ "/"

/-- Download/delete key (src/index.js:201 and 218): `username + "/" + name`. -/
def fileKey (username name : String) : String :=
  username ++ "/" ++ name

/-- Modelled from the documented contract of S3 `ListObjectsV2` (the external
storage backend, out of scope of src/): an object key is selected by a listing
with Prefix `p` iff `p` is a string prefix of the key. -/
def s3KeySelected (p key : String) : Bool :=
  p.data.isPrefixOf key.data

/-- Model of Node `path.basename` (posix, no extension argument), as
implemented in Node's lib/path.js: ignore trailing separators, then take
everything after the last remaining separator; an empty or all-separator
input yields the empty string. -/
def basename (p : String) : String :=
  let r := p.data.reverse.dropWhile (fun c => c == '/')
  ⟨(r.takeWhile (fun c => c != '/')).reverse⟩

/-- An uploaded file as exposed by multer memory storage (`req.file`). -/
structure UploadedFile where
  originalname : String
  buffer : List Nat
  mimetype : String

/-- The configured multer file-size limit in bytes (src/index.js:70-73). -/
def uploadSizeLimit : Nat := 25 * 1024 * 1024

/-- Modelled from the documented contract of the multer middleware (external
dependency, configured at src/index.js:70-73 with memory storage and
`limits.fileSize`): `upload.single("file")` exposes the multipart "file" part
as `req.file` when its size is within the limit; a larger part aborts the
request with a LIMIT_FILE_SIZE `MulterError` (the `.error` case), so the route
handler never runs; a request with no "file" part passes through with
`req.file` left `undefined` (`.ok none`). -/
def multerSingle (limit : Nat) (incoming : Option UploadedFile) :
    Except String (Option UploadedFile) :=
  match incoming with
  | none => .ok none
  | some f => if f.buffer.length ≤ limit then .ok (some f) else .error "LIMIT_FILE_SIZE"

/-- How a request to `POST /upload` terminates: a JSON response from the
handler, an abort by the multer middleware, or an exception thrown out of the
handler (which Express's default error handler turns into an HTML 500, not the
handler's documented JSON shape). -/
inductive UploadOutcome where
  | responded (r : Response)
  | multerRejected (code : String)
  | handlerThrew (msg : String)

/-- The TypeError thrown by the upload handler when `req.file` is undefined:
line 165 reads `req.file.originalname` outside the try block. -/
def uploadNoFileMsg : String := "TypeError: req.file is undefined"

/-- Model of `POST /upload` (src/index.js:163-179): `requireLogin`, then
`upload.single("file")`, then the handler.  The handler computes the object
key (reading `req.file.originalname`) before its try block, so a missing file
part throws out of the handler; otherwise it sends `PutObjectCommand` and
answers `{success:true}`, or `500 {success:false, error:"Upload failed"}` when
the backend call fails.  `putResult` is the backend outcome; the returned list
records the storage-backend calls made.  (When `requireLogin` falls through,
`sessUser` is `some u`; the `getD` default is unreachable.) -/
def uploadRoute (bucket : String) (sessUser : Option String)
    (incoming : Option UploadedFile) (nowMillis : Nat)
    (putResult : Except String Unit) : UploadOutcome × List S3Op :=
  match requireLogin sessUser with
  | some r => (.responded r, [])
  | none =>
    match multerSingle uploadSizeLimit incoming with
    | .error code => (.multerRejected code, [])
    | .ok none => (.handlerThrew uploadNoFileMsg, [])
    | .ok (some f) =>
      let key := uploadKey (sessUser.getD "") nowMillis f.originalname
      let op := S3Op.putObject bucket key f.buffer f.mimetype
      match putResult with
      | .ok _ => (.responded ⟨200, .obj [("success", .bool true)]⟩, [op])
      | .error _ =>
        (.responded ⟨500, .obj [("success", .bool false), ("error", .str "Upload failed")]⟩, [op])

/-- One entry of `ListObjectsV2`'s `Contents` array. -/
structure S3Object where
  Key : String

/-- Handler body of `GET /files` (src/index.js:182-197): list the bucket with
Prefix `username + "/"`; answer `(data.Contents || []).map(f =>
path.basename(f.Key))`; on a backend error answer `500 []`.  `listResult` is
the backend outcome; `Contents` is absent (`none`) when the listing is empty. -/
def filesHandler (bucket username : String)
    (listResult : Except String (Option (List S3Object))) :
    Response × List S3Op :=
  let op := S3Op.listObjectsV2 bucket (listPre username)
  match listResult with
  | .ok contents =>
    (⟨200, .arr ((contents.getD []).map (fun f => .str (basename f.Key)))⟩, [op])
  | .error _ => (⟨500, .arr []⟩, [op])

/-- `GET /files` route: `requireLogin`, then the handler. -/
def filesRoute (bucket : String) (sessUser : Option String)
    (listResult : Except String (Option (List S3Object))) :
    Response × List S3Op :=
  match requireLogin sessUser with
  | some r => (r, [])
  | none => filesHandler bucket (sessUser.getD "") listResult

/-- Handler body of `GET /file/:name` (src/index.js:200-214): issue a
1-hour (3600 s) pre-signed GET URL for `username + "/" + name`; answer
`{url}`; on a backend error answer `500 {url:null}`. -/
def fileGetHandler (bucket username name : String)
    (urlResult : Except String String) : Response × List S3Op :=
  let op := S3Op.getSignedUrlGet bucket (fileKey username name) 3600
  match urlResult with
  | .ok url => (⟨200, .obj [("url", .str url)]⟩, [op])
  | .error _ => (⟨500, .obj [("url", .null)]⟩, [op])

/-- `GET /file/:name` route: `requireLogin`, then the handler. -/
def fileGetRoute (bucket : String) (sessUser : Option String) (name : String)
    (urlResult : Except String String) : Response × List S3Op :=
  match requireLogin sessUser with
  | some r => (r, [])
  | none => fileGetHandler bucket (sessUser.getD "") name urlResult

/-- Handler body of `DELETE /file/:name` (src/index.js:217-227): send
`DeleteObjectCommand` for `username + "/" + name`; answer `{success:true}`;
on a backend error answer `500 {success:false}`. -/
def fileDeleteHandler (bucket username name : String)
    (delResult : Except String Unit) : Response × List S3Op :=
  let op := S3Op.deleteObject bucket (fileKey username name)
  match delResult with
  | .ok _ => (⟨200, .obj [("success", .bool true)]⟩, [op])
  | .error _ => (⟨500, .obj [("success", .bool false)]⟩, [op])

/-- `DELETE /file/:name` route: `requireLogin`, then the handler. -/
def fileDeleteRoute (bucket : String) (sessUser : Option String) (name : String)
    (delResult : Except String Unit) : Response × List S3Op :=
  match requireLogin sessUser with
  | some r => (r, [])
  | none => fileDeleteHandler bucket (sessUser.getD "") name delResult

/-! ### Helper lemmas -/

lemma slash_data : ("/" : String).data = ['/'] := rfl

lemma dash_data : ("-" : String).data = ['-'] := rfl

/-- A slash-free segment followed by `'/'` determines itself: if `b ++ "/"` is
a list prefix of `a ++ "/" ++ r` and neither `a` nor `b` contains `'/'`,
then `b = a`. -/
lemma seg_eq_of_slash_pre :
    ∀ (a : List Char), '/' ∉ a → ∀ (b : List Char), '/' ∉ b → ∀ (r : List Char),
      (b ++ ['/']).isPrefixOf (a ++ '/' :: r) = true → b = a := by
  intro a
  induction a with
  | nil =>
    intro _ b hb r h
    cases b with
    | nil => rfl
    | cons c bs =>
      exfalso
      rw [List.cons_append, List.nil_append, List.isPrefixOf_cons₂,
        Bool.and_eq_true_iff] at h
      obtain rfl := eq_of_beq h.1
      exact hb (List.mem_cons_self _ _)
  | cons x xs ih =>
    intro ha b hb r h
    cases b with
    | nil =>
      exfalso
      rw [List.nil_append, List.cons_append, List.isPrefixOf_cons₂,
        Bool.and_eq_true_iff] at h
      obtain rfl := eq_of_beq h.1
      exact ha (List.mem_cons_self _ _)
    | cons c bs =>
      have hxs : '/' ∉ xs := fun hm => ha (List.mem_cons_of_mem _ hm)
      have hbs : '/' ∉ bs := fun hm => hb (List.mem_cons_of_mem _ hm)
      rw [List.cons_append, List.cons_append, List.isPrefixOf_cons₂,
        Bool.and_eq_true_iff] at h
      obtain ⟨h1, h2⟩ := h
      obtain rfl := eq_of_beq h1
      rw [ih hxs bs hbs r h2]

lemma beq_empty_false {s : String} (h : s ≠ "") : (s == "") = false := by
  cases hb : s == "" with
  | false => rfl
  | true => exact absurd (eq_of_beq hb) h

lemma jsTruthy_str {s : String} (h : s ≠ "") : jsTruthy (.str s) = true := by
  simp [jsTruthy, bne, beq_empty_false h]

/-- `loadUsers` always reports back exactly the mapping it returns. -/
lemma loadUsers_self (b : String → String) (fs : FsState) :
    loadUsers b fs = ((loadUsers b fs).1, some ((loadUsers b fs).1)) := by
  cases fs <;> rfl

lemma getUser_setUser_self (users : Users) (u v : String)
    (h : getUser users u = .undef) : getUser (setUser users u v) u = .str v := by
  induction users with
  | nil => simp [getUser, setUser]
  | cons kv t ih =>
    obtain ⟨k, w⟩ := kv
    cases hk : k == u with
    | true => simp [getUser, hk] at h
    | false =>
      have h' : getUser t u = .undef := by simpa [getUser, hk] using h
      simpa [getUser, setUser, hk] using ih h'

lemma addUser_fresh (bhashSync bhash : String → String) (fs : FsState)
    (u p : String) (h : getUser (loadUsers bhashSync fs).1 u = .undef) :
    addUser bhashSync bhash fs u p =
      (.ok u, some (setUser (loadUsers bhashSync fs).1 u (bhash p))) := by
  simp only [addUser, h]
  rfl

lemma addUser_taken (bhashSync bhash : String → String) (fs : FsState)
    (u p h : String) (hget : getUser (loadUsers bhashSync fs).1 u = .str h)
    (hne : h ≠ "") :
    addUser bhashSync bhash fs u p =
      (.error "User already exists", (loadUsers bhashSync fs).2) := by
  simp only [addUser, hget, jsTruthy_str hne]
  rfl

lemma findUser_none (bhashSync : String → String) (fs : FsState) (u : String)
    (hget : getUser (loadUsers bhashSync fs).1 u = .undef) :
    findUser bhashSync fs u = (none, (loadUsers bhashSync fs).2) := by
  simp only [findUser, hget]
  rfl

lemma findUser_blank (bhashSync : String → String) (fs : FsState) (u : String)
    (hget : getUser (loadUsers bhashSync fs).1 u = .str "") :
    findUser bhashSync fs u = (none, (loadUsers bhashSync fs).2) := by
  simp only [findUser, hget]
  rfl

lemma findUser_str (bhashSync : String → String) (fs : FsState) (u h : String)
    (hget : getUser (loadUsers bhashSync fs).1 u = .str h) (hne : h ≠ "") :
    findUser bhashSync fs u =
      (some (u, .str h), (loadUsers bhashSync fs).2) := by
  simp only [findUser, hget, jsTruthy_str hne]
  rfl

lemma findUser_inherited (bhashSync : String → String) (fs : FsState)
    (u nm : String)
    (hget : getUser (loadUsers bhashSync fs).1 u = .inherited nm) :
    findUser bhashSync fs u =
      (some (u, .inherited nm), (loadUsers bhashSync fs).2) := by
  simp only [findUser, hget]
  rfl

lemma loginRoute_of_findUser_none (bhashSync : String → String)
    (bcompare : String → String → Bool) (fs : FsState) (sessUser : Option String)
    (u pw : String) (hf : (findUser bhashSync fs u).1 = none) :
    loginRoute bhashSync bcompare fs sessUser u pw =
      (.ok ⟨401, .obj [("success", .bool false)]⟩, sessUser,
        (findUser bhashSync fs u).2) := by
  simp only [loginRoute, hf]

lemma loginRoute_of_findUser_str (bhashSync : String → String)
    (bcompare : String → String → Bool) (fs : FsState) (sessUser : Option String)
    (u pw uu h : String) (hf : (findUser bhashSync fs u).1 = some (uu, .str h)) :
    loginRoute bhashSync bcompare fs sessUser u pw =
      (if bcompare pw h then (.ok ⟨200, .obj [("success", .bool true)]⟩, some uu,
          (findUser bhashSync fs u).2)
       else (.ok ⟨401, .obj [("success", .bool false)]⟩, sessUser,
          (findUser bhashSync fs u).2)) := by
  simp only [loginRoute, hf, bcryptCompare]

lemma loginRoute_of_findUser_inherited (bhashSync : String → String)
    (bcompare : String → String → Bool) (fs : FsState) (sessUser : Option String)
    (u pw uu nm : String)
    (hf : (findUser bhashSync fs u).1 = some (uu, .inherited nm)) :
    loginRoute bhashSync bcompare fs sessUser u pw =
      (.error "Illegal arguments", sessUser, (findUser bhashSync fs u).2) := by
  simp only [loginRoute, hf, bcryptCompare]

lemma data_ne_nil {s : String} (h : s ≠ "") : s.data ≠ [] :=
  fun hd => h (String.ext (by rw [hd]))

lemma takeWhile_until_slash (l m : List Char) (hl : '/' ∉ l) :
    (l ++ '/' :: m).takeWhile (fun c => c != '/') = l := by
  induction l with
  | nil => simp [List.takeWhile_cons]
  | cons x xs ih =>
    have hx : x ≠ '/' := fun he => hl (he ▸ List.mem_cons_self _ _)
    have hxs : '/' ∉ xs := fun hm => hl (List.mem_cons_of_mem _ hm)
    have hx' : (x != '/') = true := by simp [bne, hx]
    simp only [List.cons_append, List.takeWhile_cons, hx', if_true]
    rw [ih hxs]

lemma dropWhile_cons_nonslash (x : Char) (l : List Char) (hx : x ≠ '/') :
    (x :: l).dropWhile (fun c => c == '/') = x :: l := by
  have hx' : (x == '/') = false := beq_eq_false_iff_ne.mpr hx
  simp [List.dropWhile_cons, hx']

/-- Node `path.basename` of `t ++ "/" ++ s` is `s` whenever `s` is nonempty
and slash-free. -/
lemma basename_of_slash_free (t s : String) (hs : '/' ∉ s.data)
    (hne : s.data ≠ []) : basename (t ++ "/" ++ s) = s := by
  simp only [basename]
  have hd : (t ++ "/" ++ s).data = t.data ++ '/' :: s.data := by
    simp [String.data_append, slash_data, List.append_assoc]
  rw [hd, List.reverse_append, List.reverse_cons, List.append_assoc,
    List.singleton_append]
  obtain ⟨y, ys, hy⟩ : ∃ y ys, s.data.reverse = y :: ys := by
    cases hrev : s.data.reverse with
    | nil => exact absurd (by simpa using hrev) hne
    | cons y ys => exact ⟨y, ys, rfl⟩
  have hyrev : '/' ∉ (y :: ys) := by
    rw [← hy]
    intro hm
    exact hs (List.mem_reverse.mp hm)
  have hyne : y ≠ '/' := fun he => hyrev (he ▸ List.mem_cons_self _ _)
  rw [hy, List.cons_append, dropWhile_cons_nonslash y _ hyne,
    ← List.cons_append, takeWhile_until_slash _ _ hyrev, ← hy,
    List.reverse_reverse]

/-! ### Claim theorems -/

/-- C1 (amended): for every pair of distinct usernames neither of which
contains the path separator "/", every object key produced by upload for u1
falls outside the listing Prefix of u2, so list(u2) never selects a file
uploaded by u1.  (For arbitrary usernames the claim is false — see the
counterexample: a username may itself contain "/".) -/
theorem upload_key_isolation (u1 u2 f : String) (now : Nat)
    (h1 : '/' ∉ u1.data) (h2 : '/' ∉ u2.data) (hne : u1 ≠ u2) :
    s3KeySelected (listPre u2) (uploadKey u1 now f) = false := by
  have hd2 : (listPre u2).data = u2.data ++ ['/'] := by
    simp [listPre, String.data_append, slash_data]
  have hd1 : (uploadKey u1 now f).data
      = u1.data ++ '/' :: ((toString now).data ++ '-' :: f.data) := by
    simp [uploadKey, String.data_append, slash_data, dash_data, List.append_assoc]
  unfold s3KeySelected
  rw [hd1, hd2]
  cases hres : (u2.data ++ ['/']).isPrefixOf
      (u1.data ++ '/' :: ((toString now).data ++ '-' :: f.data)) with
  | false => rfl
  | true =>
    exact absurd (String.ext (seg_eq_of_slash_pre u1.data h1 u2.data h2 _ hres)).symm hne

/-- C1 counterexample: usernames are arbitrary strings (neither code nor spec
restricts them), and for the distinct usernames u1 = "a/b" and u2 = "a" the
upload key produced for u1 falls under the listing Prefix of u2, so list("a")
includes a file uploaded by "a/b".  The claim as stated (for every pair of
distinct usernames) is therefore false. -/
theorem upload_key_isolation_cx :
    ("a/b" : String) ≠ "a" ∧
    s3KeySelected (listPre "a") (uploadKey "a/b" 0 "f") = true := by
  exact ⟨by decide, by decide⟩

theorem upload_key_isolation_witness :
    s3KeySelected (listPre "bob") (uploadKey "alice" 1700000000000 "notes.txt")
      = false :=
  upload_key_isolation "alice" "bob" "notes.txt" 1700000000000
    (by decide) (by decide) (by decide)

/-- C2: a request with no session identity to any of the four gated endpoints
(POST /upload, GET /files, GET /file/:name, DELETE /file/:name) is answered
`401 {success:false, error:"Login required"}` and performs no storage-backend
operation. -/
theorem gated_routes_unauthenticated (bucket name : String)
    (incoming : Option UploadedFile) (now : Nat) (putResult : Except String Unit)
    (listResult : Except String (Option (List S3Object)))
    (urlResult : Except String String) (delResult : Except String Unit) :
    uploadRoute bucket none incoming now putResult =
      (.responded loginRequired401, []) ∧
    filesRoute bucket none listResult = (loginRequired401, []) ∧
    fileGetRoute bucket none name urlResult = (loginRequired401, []) ∧
    fileDeleteRoute bucket none name delResult = (loginRequired401, []) :=
  ⟨rfl, rfl, rfl, rfl⟩

/-- C6: on a storage-backend error, the list endpoint answers `500 []` and the
download-link endpoint `500 {url:null}` (the failure masked as an empty/null
payload), while upload answers `500 {success:false, error:"Upload failed"}`
and delete `500 {success:false}` (explicit failure responses) — for every
backend error of each operation. -/
theorem backend_error_asymmetry (bucket u name e1 e2 e3 e4 : String)
    (f : UploadedFile) (now : Nat)
    (hsize : f.buffer.length ≤ uploadSizeLimit) :
    (filesRoute bucket (some u) (.error e1)).1 = ⟨500, .arr []⟩ ∧
    (fileGetRoute bucket (some u) name (.error e2)).1 =
      ⟨500, .obj [("url", .null)]⟩ ∧
    (uploadRoute bucket (some u) (some f) now (.error e3)).1 =
      .responded ⟨500, .obj [("success", .bool false), ("error", .str "Upload failed")]⟩ ∧
    (fileDeleteRoute bucket (some u) name (.error e4)).1 =
      ⟨500, .obj [("success", .bool false)]⟩ := by
  refine ⟨rfl, rfl, ?_, rfl⟩
  simp [uploadRoute, requireLogin, multerSingle, hsize]

theorem backend_error_asymmetry_witness :
    (filesRoute "B" (some "alice") (.error "down")).1 = ⟨500, .arr []⟩ ∧
    (uploadRoute "B" (some "alice") (some ⟨"a.txt", [65], "t"⟩) 7 (.error "down")).1 =
      .responded ⟨500, .obj [("success", .bool false), ("error", .str "Upload failed")]⟩ := by
  have h := backend_error_asymmetry "B" "alice" "n" "down" "d2" "down" "d4"
    ⟨"a.txt", [65], "t"⟩ 7 (by norm_num [uploadSizeLimit])
  exact ⟨h.1, h.2.2.1⟩

/-- C8: when the backing file does not exist, `loadUsers` first creates it
containing exactly the one default account `admin` mapped to a hash of the
fixed default password "r", and returns that one-entry mapping; when the file
exists, it returns its contents without modifying them. -/
theorem loadUsers_initializes (bhashSync : String → String) :
    loadUsers bhashSync none =
      ([("admin", bhashSync "r")], some [("admin", bhashSync "r")]) ∧
    ∀ m : Users, loadUsers bhashSync (some m) = (m, some m) :=
  ⟨rfl, fun _ => rfl⟩

/-- C9: an authenticated POST /upload carrying no file part makes the handler
throw — the key computation dereferences `req.file` before the try block — so
no storage-backend call happens and no `{success:false}` JSON response is
produced; a file part is an unstated precondition of upload. -/
theorem upload_no_file_throws (bucket u : String) (now : Nat)
    (putResult : Except String Unit) :
    uploadRoute bucket (some u) none now putResult =
      (.handlerThrew uploadNoFileMsg, []) ∧
    ∀ r : Response,
      (uploadRoute bucket (some u) none now putResult).1 ≠ .responded r :=
  ⟨rfl, fun _ h => UploadOutcome.noConfusion h⟩

theorem upload_no_file_throws_witness :
    uploadRoute "B" (some "alice") none 3 (.ok ()) =
      (.handlerThrew uploadNoFileMsg, []) ∧
    (uploadRoute "B" (some "alice") none 3 (.ok ())).1 ≠
      .responded ⟨500, .obj [("success", .bool false), ("error", .str "Upload failed")]⟩ :=
  ⟨(upload_no_file_throws "B" "alice" 3 (.ok ())).1,
   (upload_no_file_throws "B" "alice" 3 (.ok ())).2 _⟩

/-- C10: the upload middleware is configured with a 25 * 1024 * 1024-byte file
size limit: an authenticated upload whose file is larger is rejected by multer
before any storage-backend call, while one within the limit reaches the
backend put. -/
theorem upload_size_limit_enforced (bucket u : String) (f : UploadedFile)
    (now : Nat) (putResult : Except String Unit) :
    uploadSizeLimit = 25 * 1024 * 1024 ∧
    (uploadSizeLimit < f.buffer.length →
      uploadRoute bucket (some u) (some f) now putResult =
        (.multerRejected "LIMIT_FILE_SIZE", [])) ∧
    (f.buffer.length ≤ uploadSizeLimit →
      (uploadRoute bucket (some u) (some f) now putResult).2 =
        [S3Op.putObject bucket (uploadKey u now f.originalname) f.buffer f.mimetype]) := by
  refine ⟨rfl, ?_, ?_⟩
  · intro hgt
    have hnot : ¬ f.buffer.length ≤ uploadSizeLimit := Nat.not_le.mpr hgt
    simp [uploadRoute, requireLogin, multerSingle, hnot]
  · intro hle
    cases putResult <;>
      simp [uploadRoute, requireLogin, multerSingle, hle]

theorem upload_size_limit_enforced_witness :
    uploadRoute "B" (some "alice")
      (some ⟨"big.bin", List.replicate (25 * 1024 * 1024 + 1) 0, "b"⟩) 0 (.ok ()) =
      (.multerRejected "LIMIT_FILE_SIZE", []) ∧
    (uploadRoute "B" (some "alice") (some ⟨"a.txt", [65], "t"⟩) 7 (.ok ())).2 =
      [S3Op.putObject "B" (uploadKey "alice" 7 "a.txt") [65] "t"] := by
  constructor
  · exact (upload_size_limit_enforced "B" "alice" _ 0 (.ok ())).2.1
      (by simp only [uploadSizeLimit, List.length_replicate]; omega)
  · exact (upload_size_limit_enforced "B" "alice" _ 7 (.ok ())).2.2
      (by norm_num [uploadSizeLimit])

/-- C7 (amended): each entry returned by an authenticated list request equals
`path.basename` of the stored object key — its last path segment — and this
coincides with the key minus the leading `username + "/"` exactly when the
remainder after that Prefix is nonempty and contains no further "/". -/
theorem files_display_names (bucket u : String) (objs : List S3Object) :
    (filesRoute bucket (some u) (.ok (some objs))).1.body =
      .arr (objs.map (fun f => .str (basename f.Key))) ∧
    ∀ s : String, '/' ∉ s.data → s ≠ "" → basename (listPre u ++ s) = s := by
  constructor
  · rfl
  · intro s hs hne
    exact basename_of_slash_free u s hs (data_ne_nil hne)

/-- C7 counterexample: the stored key "a/1-b/c" lies under the listing Prefix
of user "a" and its Prefix-stripped remainder is "1-b/c", but the entry the
code returns for it is `path.basename`, namely "c" — so a returned entry does
not always equal the key with the username-and-separator Prefix stripped. -/
theorem files_display_names_cx :
    ("a/1-b/c" : String) = listPre "a" ++ "1-b/c" ∧
    (filesRoute "B" (some "a") (.ok (some [⟨"a/1-b/c"⟩]))).1.body =
      .arr [.str "c"] ∧
    ("c" : String) ≠ "1-b/c" := by
  refine ⟨by decide, ?_, by decide⟩
  rfl

theorem files_display_names_witness :
    (filesRoute "B" (some "alice") (.ok (some [⟨"alice/1-a.txt"⟩]))).1.body =
      .arr [.str (basename "alice/1-a.txt")] ∧
    basename (listPre "alice" ++ "1-a.txt") = "1-a.txt" :=
  ⟨(files_display_names "B" "alice" [⟨"alice/1-a.txt"⟩]).1,
   (files_display_names "B" "alice" []).2 "1-a.txt" (by decide) (by decide)⟩

/-- C3 (amended): for a username u whose property read on the loaded store is
`undefined` — u is neither stored nor an `Object.prototype` property name —
and any password p, registration succeeds and binds the session to u, and a
subsequent login with (u, p) succeeds and yields identity u.  `bhash` and
`bcompare` are bcrypt's salted hash and verify; the last two hypotheses are
bcrypt's contract for this pair (hashes are nonempty, and the password
verifies against its own hash).  (As stated, for every username merely absent
from the store, the claim is false: see the counterexample with username
"constructor".) -/
theorem register_then_login (bhashSync bhash : String → String)
    (bcompare : String → String → Bool) (fs : FsState) (sess : Option String)
    (u p : String)
    (hfresh : getUser (loadUsers bhashSync fs).1 u = .undef)
    (hh : bhash p ≠ "") (hcmp : bcompare p (bhash p) = true) :
    (registerRoute bhashSync bhash fs sess u p).1 =
      ⟨200, .obj [("success", .bool true)]⟩ ∧
    (registerRoute bhashSync bhash fs sess u p).2.1 = some u ∧
    (loginRoute bhashSync bcompare (registerRoute bhashSync bhash fs sess u p).2.2
        (registerRoute bhashSync bhash fs sess u p).2.1 u p).1 =
      .ok ⟨200, .obj [("success", .bool true)]⟩ ∧
    (loginRoute bhashSync bcompare (registerRoute bhashSync bhash fs sess u p).2.2
        (registerRoute bhashSync bhash fs sess u p).2.1 u p).2.1 = some u := by
  have hadd := addUser_fresh bhashSync bhash fs u p hfresh
  have hreg : registerRoute bhashSync bhash fs sess u p =
      (⟨200, .obj [("success", .bool true)]⟩, some u,
        some (setUser (loadUsers bhashSync fs).1 u (bhash p))) := by
    simp only [registerRoute, hadd]
  have hget2 : getUser
      (loadUsers bhashSync
        (some (setUser (loadUsers bhashSync fs).1 u (bhash p)))).1 u =
      .str (bhash p) :=
    getUser_setUser_self _ _ _ hfresh
  have hf : (findUser bhashSync
      (some (setUser (loadUsers bhashSync fs).1 u (bhash p))) u).1 =
      some (u, .str (bhash p)) := by
    rw [findUser_str bhashSync _ u (bhash p) hget2 hh]
  have hlog : loginRoute bhashSync bcompare
      (some (setUser (loadUsers bhashSync fs).1 u (bhash p))) (some u) u p =
      (.ok ⟨200, .obj [("success", .bool true)]⟩, some u,
        (findUser bhashSync
          (some (setUser (loadUsers bhashSync fs).1 u (bhash p))) u).2) := by
    rw [loginRoute_of_findUser_str bhashSync bcompare _ (some u) u p u (bhash p) hf]
    simp [hcmp]
  rw [hreg]
  exact ⟨rfl, rfl, by rw [hlog], by rw [hlog]⟩

/-- C3 counterexample: the username "constructor" appears nowhere in the
credential store, yet registration for it does not succeed:
`users["constructor"]` finds the function inherited from `Object.prototype`
(truthy), `addUser` throws "User already exists", and the route answers
`400 {success:false, error:"User already exists"}`. -/
theorem register_then_login_cx :
    ("constructor" ∉ ([("admin", "HS")] : Users).map Prod.fst) ∧
    (registerRoute (fun _ => "HS") (fun _ => "HP") (some [("admin", "HS")])
        none "constructor" "pw").1 =
      ⟨400, .obj [("success", .bool false),
        ("error", .str "User already exists")]⟩ :=
  ⟨by decide, rfl⟩

theorem register_then_login_witness :
    (registerRoute (fun _ => "HS") (fun _ => "HP") none none "alice" "pw").1 =
      ⟨200, .obj [("success", .bool true)]⟩ ∧
    (loginRoute (fun _ => "HS") (fun a b => a == "pw" && b == "HP")
        (registerRoute (fun _ => "HS") (fun _ => "HP") none none "alice" "pw").2.2
        (registerRoute (fun _ => "HS") (fun _ => "HP") none none "alice" "pw").2.1
        "alice" "pw").2.1 = some "alice" := by
  have h := register_then_login (fun _ => "HS") (fun _ => "HP")
    (fun a b => a == "pw" && b == "HP") none none "alice" "pw"
    (by rfl) (by decide) (by rfl)
  exact ⟨h.1, h.2.2.2⟩

/-- C4 (amended): login answers 401 {success:false} when the submitted
username's property read on the loaded store is `undefined` — it is neither
stored nor an `Object.prototype` property name; for an unknown username that
is an `Object.prototype` property name the handler instead throws (bcryptjs
rejects the inherited non-string value with "Illegal arguments") and no
response is sent; for a registered pair (u, p) — stored hash `bhash p`, with
any wrong password ≠ p that (by bcrypt's contract, taken as a hypothesis)
does not verify against the stored hash — it answers 401; and it succeeds
only when hash verification passes.  (As stated, for every username not in
the store, the claim is false: see the counterexample with username
"constructor".) -/
theorem login_unauthorized_modes (bhashSync : String → String)
    (bcompare : String → String → Bool) (fs : FsState) (sess : Option String)
    (u : String) :
    (∀ pw : String, getUser (loadUsers bhashSync fs).1 u = .undef →
      (loginRoute bhashSync bcompare fs sess u pw).1 =
        .ok ⟨401, .obj [("success", .bool false)]⟩) ∧
    (∀ (pw nm : String), getUser (loadUsers bhashSync fs).1 u = .inherited nm →
      (loginRoute bhashSync bcompare fs sess u pw).1 =
        .error "Illegal arguments") ∧
    (∀ (bhash : String → String) (p wrong : String), wrong ≠ p →
      getUser (loadUsers bhashSync fs).1 u = .str (bhash p) →
      bcompare wrong (bhash p) = false →
      (loginRoute bhashSync bcompare fs sess u wrong).1 =
        .ok ⟨401, .obj [("success", .bool false)]⟩) ∧
    (∀ pw : String, (loginRoute bhashSync bcompare fs sess u pw).1 =
        .ok ⟨200, .obj [("success", .bool true)]⟩ →
      ∃ h : String, getUser (loadUsers bhashSync fs).1 u = .str h ∧
        bcompare pw h = true) := by
  refine ⟨?_, ?_, ?_, ?_⟩
  · intro pw hget
    have hf : (findUser bhashSync fs u).1 = none := by
      rw [findUser_none bhashSync fs u hget]
    rw [loginRoute_of_findUser_none bhashSync bcompare fs sess u pw hf]
  · intro pw nm hget
    have hf : (findUser bhashSync fs u).1 = some (u, .inherited nm) := by
      rw [findUser_inherited bhashSync fs u nm hget]
    rw [loginRoute_of_findUser_inherited bhashSync bcompare fs sess u pw u nm hf]
  · intro bhash p wrong _ hget hcmp
    cases hb : bhash p == "" with
    | true =>
      obtain he := eq_of_beq hb
      rw [he] at hget
      have hf : (findUser bhashSync fs u).1 = none := by
        rw [findUser_blank bhashSync fs u hget]
      rw [loginRoute_of_findUser_none bhashSync bcompare fs sess u wrong hf]
    | false =>
      have hne' : bhash p ≠ "" := ne_of_beq_false hb
      have hf : (findUser bhashSync fs u).1 = some (u, .str (bhash p)) := by
        rw [findUser_str bhashSync fs u (bhash p) hget hne']
      rw [loginRoute_of_findUser_str bhashSync bcompare fs sess u wrong u
        (bhash p) hf]
      simp [hcmp]
  · intro pw hst
    cases hget : getUser (loadUsers bhashSync fs).1 u with
    | undef =>
      have hf : (findUser bhashSync fs u).1 = none := by
        rw [findUser_none bhashSync fs u hget]
      rw [loginRoute_of_findUser_none bhashSync bcompare fs sess u pw hf] at hst
      simp at hst
    | str h =>
      cases hb : h == "" with
      | true =>
        obtain he := eq_of_beq hb
        rw [he] at hget
        have hf : (findUser bhashSync fs u).1 = none := by
          rw [findUser_blank bhashSync fs u hget]
        rw [loginRoute_of_findUser_none bhashSync bcompare fs sess u pw hf] at hst
        simp at hst
      | false =>
        have hne' : h ≠ "" := ne_of_beq_false hb
        have hf : (findUser bhashSync fs u).1 = some (u, .str h) := by
          rw [findUser_str bhashSync fs u h hget hne']
        rw [loginRoute_of_findUser_str bhashSync bcompare fs sess u pw u h hf]
          at hst
        cases hc : bcompare pw h with
        | true => exact ⟨h, rfl, hc⟩
        | false =>
          rw [hc] at hst
          simp at hst
    | inherited nm =>
      have hf : (findUser bhashSync fs u).1 = some (u, .inherited nm) := by
        rw [findUser_inherited bhashSync fs u nm hget]
      rw [loginRoute_of_findUser_inherited bhashSync bcompare fs sess u pw u nm
        hf] at hst
      simp at hst

/-- C4 counterexample: the username "constructor" is not in the credential
store, yet login for it does not answer 401 {success:false}: `findUser`
returns the truthy constructor inherited from `Object.prototype` as the
password record, bcryptjs rejects the non-string hash with
"Illegal arguments", and the async handler throws with no catch — no
response is sent at all. -/
theorem login_unauthorized_modes_cx :
    ("constructor" ∉ ([("admin", "HS")] : Users).map Prod.fst) ∧
    (loginRoute (fun _ => "HS") (fun a b => a == "pw" && b == "HS")
        (some [("admin", "HS")]) none "constructor" "pw").1 =
      .error "Illegal arguments" ∧
    (loginRoute (fun _ => "HS") (fun a b => a == "pw" && b == "HS")
        (some [("admin", "HS")]) none "constructor" "pw").1 ≠
      .ok ⟨401, .obj [("success", .bool false)]⟩ :=
  ⟨by decide, rfl, fun h => Except.noConfusion h⟩

theorem login_unauthorized_modes_witness :
    (loginRoute (fun _ => "HS") (fun a b => a == "pw" && b == "H")
        (some [("u", "H")]) none "nobody" "pw").1 =
      .ok ⟨401, .obj [("success", .bool false)]⟩ ∧
    (loginRoute (fun _ => "HS") (fun a b => a == "pw" && b == "H")
        (some [("u", "H")]) none "u" "wrong").1 =
      .ok ⟨401, .obj [("success", .bool false)]⟩ :=
  ⟨(login_unauthorized_modes (fun _ => "HS") (fun a b => a == "pw" && b == "H")
      (some [("u", "H")]) none "nobody").1 "pw" (by rfl),
   (login_unauthorized_modes (fun _ => "HS") (fun a b => a == "pw" && b == "H")
      (some [("u", "H")]) none "u").2.2.1 (fun _ => "H") "pw" "wrong"
      (by decide) (by rfl) (by rfl)⟩

/-- C5: under sequential calls, a second registration for an already-registered
username fails with 400 {success:false, error:"User already exists"}, leaves
the backing store exactly as the first registration left it, and the store
still maps u to the hash produced by the first call.  `bhash1`/`bhash2` are
the two calls' salted bcrypt hashes; bcrypt hashes are nonempty (hypothesis). -/
theorem register_twice_conflict (bhashSync bhash1 bhash2 : String → String)
    (fs : FsState) (sess1 sess2 : Option String) (u p p2 : String)
    (hfresh : getUser (loadUsers bhashSync fs).1 u = .undef)
    (hh : bhash1 p ≠ "") :
    (registerRoute bhashSync bhash1 fs sess1 u p).1 =
      ⟨200, .obj [("success", .bool true)]⟩ ∧
    (registerRoute bhashSync bhash2
        (registerRoute bhashSync bhash1 fs sess1 u p).2.2 sess2 u p2).1 =
      ⟨400, .obj [("success", .bool false), ("error", .str "User already exists")]⟩ ∧
    (registerRoute bhashSync bhash2
        (registerRoute bhashSync bhash1 fs sess1 u p).2.2 sess2 u p2).2.2 =
      (registerRoute bhashSync bhash1 fs sess1 u p).2.2 ∧
    getUser (loadUsers bhashSync
        (registerRoute bhashSync bhash2
          (registerRoute bhashSync bhash1 fs sess1 u p).2.2 sess2 u p2).2.2).1 u =
      .str (bhash1 p) := by
  have hadd := addUser_fresh bhashSync bhash1 fs u p hfresh
  have hreg : registerRoute bhashSync bhash1 fs sess1 u p =
      (⟨200, .obj [("success", .bool true)]⟩, some u,
        some (setUser (loadUsers bhashSync fs).1 u (bhash1 p))) := by
    simp only [registerRoute, hadd]
  have hget2 : getUser
      (loadUsers bhashSync
        (some (setUser (loadUsers bhashSync fs).1 u (bhash1 p)))).1 u =
      .str (bhash1 p) :=
    getUser_setUser_self _ _ _ hfresh
  have hadd2 := addUser_taken bhashSync bhash2
    (some (setUser (loadUsers bhashSync fs).1 u (bhash1 p))) u p2 (bhash1 p)
    hget2 hh
  have hreg2 : registerRoute bhashSync bhash2
      (some (setUser (loadUsers bhashSync fs).1 u (bhash1 p))) sess2 u p2 =
      (⟨400, .obj [("success", .bool false), ("error", .str "User already exists")]⟩,
        sess2, some (setUser (loadUsers bhashSync fs).1 u (bhash1 p))) := by
    simp only [registerRoute, hadd2]
    rfl
  rw [hreg]
  exact ⟨rfl, by rw [hreg2], by rw [hreg2], by rw [hreg2]; exact hget2⟩

theorem register_twice_conflict_witness :
    (registerRoute (fun _ => "HS") (fun _ => "H2")
        (registerRoute (fun _ => "HS") (fun _ => "H1") none none "alice" "p1").2.2
        none "alice" "p2").1 =
      ⟨400, .obj [("success", .bool false), ("error", .str "User already exists")]⟩ ∧
    getUser (loadUsers (fun _ => "HS")
        ((registerRoute (fun _ => "HS") (fun _ => "H2")
          (registerRoute (fun _ => "HS") (fun _ => "H1") none none "alice" "p1").2.2
          none "alice" "p2").2.2)).1 "alice" = .str "H1" := by
  have h := register_twice_conflict (fun _ => "HS") (fun _ => "H1") (fun _ => "H2")
    none none none "alice" "p1" "p2" (by rfl) (by decide)
  exact ⟨h.2.1, h.2.2.2⟩

end RadheKrishna
